import Mathlib

/-!
Verification of `monitorlib` (collectd notification helper library).

This file gives a shallow embedding of the two source files
`monitorlib/collectd.py` and `monitorlib/bin/collectd_notify.py` and proves
or refutes the frozen behavioural claims about them.

Modelling conventions:
* Python strings are Lean `String`s (operated on through their `List Char`
  data, with hand-rolled helpers mirroring the exact Python semantics used by
  the source: `in` substring tests, `str.split(sep)`, `str.lstrip(' ')`,
  `file.readline()`, `str.upper()`).
* `json.loads` is modelled by a fuel-based JSON parser over `List Char`
  (`loads` below).  The fuel `length + 1` is always sufficient because every
  recursive call consumes at least one input character.
* Python exceptions are `Except PyErr`; a dispatch returns a `DispatchOut`
  recording the externally visible side effects performed (in order) together
  with either the returned Python value or the exception that escaped.
* The process-wide mutable configuration (globals such as `DATASTORE`,
  `REDIS_CONFIG`, `STATE_DIR`, `PD_KEY`) and the outside world (filesystem,
  redis, network sinks) are collected in an `Env` record that is threaded
  through the embedded functions.
-/

namespace Monitorlib

/-! ## Python string primitives -/

/-- `leadsList pat l` is true when `pat` is an initial segment of `l`. -/
def leadsList : List Char → List Char → Bool
  | [], _ => true
  | _ :: _, [] => false
  | p :: ps, l :: ls => p = l && leadsList ps ls

/-- `infixOfList pat l` is true when `pat` occurs contiguously inside `l`. -/
def infixOfList (pat : List Char) : List Char → Bool
  | [] => leadsList pat []
  | l :: ls => leadsList pat (l :: ls) || infixOfList pat ls

/-- Python `needle in hay` for strings (case-sensitive substring test). -/
def strContains (needle hay : String) : Bool :=
  infixOfList needle.toList hay.toList

/-- Helper for `pySplitChar`: accumulates the current field (reversed). -/
def splitCharAux (sep : Char) : List Char → List Char → List String
  | [], acc => [String.mk acc.reverse]
  | c :: cs, acc =>
    if c = sep then String.mk acc.reverse :: splitCharAux sep cs []
    else splitCharAux sep cs (c :: acc)

/-- Python `s.split(sep)` for a one-character separator
(`"".split(sep) = [""]`, separators at the ends yield empty fields). -/
def pySplitChar (sep : Char) (s : String) : List String :=
  splitCharAux sep s.toList []

/-- Python `s.lstrip(' ')`: strips leading space characters only. -/
def lstripSpaces (s : String) : String :=
  String.mk (s.toList.dropWhile (· = ' '))

/-- Python `s.upper()` (ASCII suffices for the severities used here). -/
def upperStr (s : String) : String :=
  String.mk (s.toList.map Char.toUpper)

/-- Python `s.lower()`, used only to state the claim-side case-insensitive
comparison of C2. -/
def lowerStr (s : String) : String :=
  String.mk (s.toList.map Char.toLower)

/-- Python `fh.readline()` on a file with contents `s`: the text up to and
including the first newline (the whole text when there is none). -/
def readline (s : String) : String :=
  let pre := s.toList.takeWhile (· ≠ '\n')
  match s.toList.drop pre.length with
  | [] => String.mk pre
  | _ :: _ => String.mk (pre ++ ['\n'])

/-- Python truthiness of an optional string (`None` and `""` are falsy). -/
def pyTruthyOptStr : Option String → Bool
  | Option.none => false
  | some s => s ≠ ""

/-! ## Model of `json.loads`

A faithful executable JSON reader covering the grammar `json.loads` accepts
in its default strict mode: strings with the standard escapes (unescaped
control characters rejected), numbers without leading zeros, objects, arrays,
`true`/`false`/`null`, and insignificant whitespace.  The single knowing
simplification: a `\uXXXX` escape denoting a surrogate half (which Lean's
`Char` cannot represent) decodes to the null character; no theorem below
exercises that corner. -/

/-- JSON values.  Numbers keep their source text; no claim inspects them. -/
inductive JVal where
  | str (s : String)
  | num (digits : String)
  | jbool (b : Bool)
  | jnull
  | arr (elems : List JVal)
  | obj (members : List (String × JVal))

/-- JSON insignificant whitespace (space, tab, linefeed, carriage return). -/
def isWs (c : Char) : Bool :=
  c.toNat = 32 || c.toNat = 9 || c.toNat = 10 || c.toNat = 13

/-- Value of a hexadecimal digit (digits, then lowercase, then uppercase). -/
def hexDigit (c : Char) : Option Nat :=
  let n := c.toNat
  if n ≥ 48 && n ≤ 57 then some (n - 48)
  else if n ≥ 97 && n ≤ 102 then some (n - 87)
  else if n ≥ 65 && n ≤ 70 then some (n - 55)
  else Option.none

/-- Single-character JSON escapes. -/
def escChar (e : Char) : Option Char :=
  if e = 'n' then some '\n'
  else if e = 't' then some '\t'
  else if e = 'r' then some '\r'
  else if e = 'b' then some (Char.ofNat 8)
  else if e = 'f' then some (Char.ofNat 12)
  else if e = '"' then some '"'
  else if e = '\\' then some '\\'
  else if e = '/' then some '/'
  else Option.none

/-- Parses a JSON string body after the opening quote; returns the decoded
characters and the input remaining after the closing quote.  The fuel only
has to dominate the number of decoded characters; every recursive call
consumes at least one input character, so `parseString` below passes
`input length + 1`.  (The escape branch decomposes the tail with `head?`,
`take` and `drop` rather than nested patterns so that the function's
equations stay applicable when only the head of the input is known.) -/
def parseStringBody : Nat → List Char → Option (List Char × List Char)
  | 0, _ => Option.none
  | _ + 1, [] => Option.none
  | f + 1, c :: cs =>
    if c = '"' then some ([], cs)
    else if c = '\\' then
      match cs.head? with
      | Option.none => Option.none
      | some e =>
        if e = 'u' then
          match cs.tail.take 4 with
          | [h1, h2, h3, h4] =>
            match hexDigit h1, hexDigit h2, hexDigit h3, hexDigit h4 with
            | some a, some b, some c4, some d =>
              (parseStringBody f (cs.tail.drop 4)).map
                (fun r => (Char.ofNat (a * 4096 + b * 256 + c4 * 16 + d) :: r.1, r.2))
            | _, _, _, _ => Option.none
          | _ => Option.none
        else
          match escChar e with
          | some ec => (parseStringBody f cs.tail).map (fun r => (ec :: r.1, r.2))
          | Option.none => Option.none
    else if c.toNat < 32 then Option.none
    else (parseStringBody f cs).map (fun r => (c :: r.1, r.2))

/-- Parses a JSON string body with the always-sufficient fuel. -/
def parseString (cs : List Char) : Option (List Char × List Char) :=
  parseStringBody (cs.length + 1) cs

/-- Fractional part of a JSON number (empty when there is none). -/
def parseFrac (rest : List Char) : Option (List Char × List Char) :=
  match rest with
  | '.' :: r2 =>
    let ds := r2.takeWhile (·.isDigit)
    if ds.isEmpty then Option.none
    else some ('.' :: ds, r2.dropWhile (·.isDigit))
  | _ => some ([], rest)

/-- Exponent part of a JSON number (empty when there is none). -/
def parseExp (rest : List Char) : Option (List Char × List Char) :=
  match rest with
  | [] => some ([], [])
  | e :: r2 =>
    if e = 'e' || e = 'E' then
      let signAndRest : List Char × List Char :=
        match r2 with
        | s :: r3 => if s = '+' || s = '-' then ([s], r3) else ([], r2)
        | [] => ([], r2)
      let ds := signAndRest.2.takeWhile (·.isDigit)
      if ds.isEmpty then Option.none
      else some (e :: (signAndRest.1 ++ ds), signAndRest.2.dropWhile (·.isDigit))
    else some ([], e :: r2)

/-- JSON number: `-? (0 | [1-9][0-9]*) frac? exp?`. -/
def parseNumber (cs : List Char) : Option (List Char × List Char) :=
  let signAndRest : List Char × List Char :=
    match cs with
    | '-' :: r => (['-'], r)
    | _ => ([], cs)
  match signAndRest.2 with
  | [] => Option.none
  | c :: r =>
    if !c.isDigit then Option.none
    else
      let intAndRest : List Char × List Char :=
        if c = '0' then ([c], r)
        else (c :: r.takeWhile (·.isDigit), r.dropWhile (·.isDigit))
      match parseFrac intAndRest.2 with
      | Option.none => Option.none
      | some (fr, rest2) =>
        match parseExp rest2 with
        | Option.none => Option.none
        | some (ex, rest3) =>
          some (signAndRest.1 ++ intAndRest.1 ++ fr ++ ex, rest3)

/-- A pending task of the recursive-descent reader: a value, the members of
an object already opened, or the elements of an array already opened.  The
three mutually recursive procedures are packaged as one structurally
recursive function on the fuel so that the definition reduces inside the
kernel. -/
inductive PJob where
  | value (cs : List Char)
  | members (cs : List Char) (acc : List (String × JVal))
  | elems (cs : List Char) (acc : List JVal)

/-- One fuel-indexed step of the JSON reader.  The fuel only has to dominate
the recursion depth; every recursive call consumes at least one character,
so the caller passes `input length + 1`. -/
def parseStep : Nat → PJob → Option (JVal × List Char)
  | 0, _ => Option.none
  | f + 1, PJob.value cs =>
    match cs.dropWhile isWs with
    | [] => Option.none
    | c :: rest =>
      if c = '"' then
        (parseString rest).map (fun r => (JVal.str (String.mk r.1), r.2))
      else if c = Char.ofNat 123 then
        match rest.dropWhile isWs with
        | c2 :: r2 =>
          if c2 = Char.ofNat 125 then some (JVal.obj [], r2)
          else parseStep f (PJob.members rest [])
        | [] => Option.none
      else if c = '[' then
        match rest.dropWhile isWs with
        | ']' :: r2 => some (JVal.arr [], r2)
        | _ => parseStep f (PJob.elems rest [])
      else if c = 't' then
        if rest.take 3 = ['r', 'u', 'e'] then some (JVal.jbool true, rest.drop 3)
        else Option.none
      else if c = 'f' then
        if rest.take 4 = ['a', 'l', 's', 'e'] then some (JVal.jbool false, rest.drop 4)
        else Option.none
      else if c = 'n' then
        if rest.take 3 = ['u', 'l', 'l'] then some (JVal.jnull, rest.drop 3)
        else Option.none
      else
        (parseNumber (c :: rest)).map (fun r => (JVal.num (String.mk r.1), r.2))
  | f + 1, PJob.members cs acc =>
    match cs.dropWhile isWs with
    | '"' :: cs1 =>
      match parseString cs1 with
      | Option.none => Option.none
      | some (k, cs2) =>
        match cs2.dropWhile isWs with
        | ':' :: cs3 =>
          match parseStep f (PJob.value cs3) with
          | Option.none => Option.none
          | some (v, cs4) =>
            match cs4.dropWhile isWs with
            | c :: cs5 =>
              if c = ',' then parseStep f (PJob.members cs5 (acc ++ [(String.mk k, v)]))
              else if c = Char.ofNat 125 then
                some (JVal.obj (acc ++ [(String.mk k, v)]), cs5)
              else Option.none
            | [] => Option.none
        | _ => Option.none
    | _ => Option.none
  | f + 1, PJob.elems cs acc =>
    match parseStep f (PJob.value cs) with
    | Option.none => Option.none
    | some (v, cs2) =>
      match cs2.dropWhile isWs with
      | c :: cs3 =>
        if c = ',' then parseStep f (PJob.elems cs3 (acc ++ [v]))
        else if c = ']' then some (JVal.arr (acc ++ [v]), cs3)
        else Option.none
      | [] => Option.none

/-- Parses one JSON value. -/
def parseValue (f : Nat) (cs : List Char) : Option (JVal × List Char) :=
  parseStep f (PJob.value cs)

/-- `json.loads`: parse one value and require only whitespace to follow. -/
def loads (s : String) : Option JVal :=
  match parseValue (s.toList.length + 1) s.toList with
  | some (v, rest) => if rest.dropWhile isWs = [] then some v else Option.none
  | Option.none => Option.none

/-! ## Embedding of `monitorlib/collectd.py` -/

/-- The Python exceptions the embedded code can let escape. -/
inductive PyErr where
  | jsonError                       -- ValueError from json.loads (line 225)
  | typeError                       -- dict value of unexpected type
  | keyError (k : String)           -- missing dict key
  | kvError                         -- redis connection/timeout error
  | ioError                         -- open(state_file, 'w') failing
  | deliveryError (sink : String)   -- a sink's transport/auth failure
  | indexError                      -- list index out of range
  | valueError                      -- e.g. unpacking split() of wrong arity
deriving DecidableEq

/-- The Python value a completed `dispatch_alert` returns.  Every path of the
source function returns `None` (early `return None` or falling off the end),
which is why there is exactly one constructor. -/
inductive PyVal where
  | pyNone
deriving DecidableEq

instance instDecEqExcept {ε α : Type} [DecidableEq ε] [DecidableEq α] :
    DecidableEq (Except ε α) := fun a b =>
  match a, b with
  | .ok x, .ok y =>
    if h : x = y then isTrue (congrArg Except.ok h)
    else isFalse (fun hh => h (Except.ok.inj hh))
  | .error x, .error y =>
    if h : x = y then isTrue (congrArg Except.error h)
    else isFalse (fun hh => h (Except.error.inj hh))
  | .ok _, .error _ => isFalse (fun hh => Except.noConfusion hh)
  | .error _, .ok _ => isFalse (fun hh => Except.noConfusion hh)

/-- Externally visible side effects of a dispatch, in program order. -/
inductive Action where
  | chown (file : String)                    -- the "sudo chown" attempt (line 249)
  | stateWrite (file content : String)       -- write of the state file (261-262)
  | pager (kind text : String)               -- pagerduty.event(kind, text)
  | emailSend (addr : String)                -- send_to_email(address, ...)
  | urlPost (u : String)                     -- post_to_url(message, url)
deriving DecidableEq

/-- Result of a dispatch: the actions performed before returning or raising,
and the outcome (`.ok` with the returned value, `.error` with the escaped
exception). -/
structure DispatchOut where
  actions : List Action
  outcome : Except PyErr PyVal
deriving DecidableEq

/-- Result of a `conn.get(key)` call against redis: a value (possibly
absent), or a connection/timeout failure raised by the client. -/
inductive KvResult where
  | val (v : Option String)
  | err
deriving DecidableEq

/-- The parsed alert dictionary of line 225 (keys host/plugin/severity/message). -/
structure Event where
  host : String
  plugin : String
  severity : String
  message : String
deriving DecidableEq

/-- Process-wide configuration globals plus the outside world as the embedded
code observes it. -/
structure Env where
  fqdn : String                 -- FQDN (line 85)
  caller : String               -- CALLER (line 88)
  datastore : Option String     -- DATASTORE global (None unless set)
  redisConfigured : Bool        -- whether REDIS_CONFIG is in globals()
  kv : String → KvResult        -- behaviour of conn.get in this dispatch
  stateDir : Option String      -- STATE_DIR if set_state_dir was called
  dirExists : Bool              -- os.path.exists(STATE_DIR)
  dirWritable : Bool            -- os.access(STATE_DIR, os.W_OK)
  stateFile : Option String     -- contents of STATE_DIR/<plugin>, if it exists
  stateFileWritable : Bool      -- os.access(state_file, os.W_OK)
  writeOk : Bool                -- whether open(state_file, 'w') succeeds
  pdKeySet : Bool               -- whether PD_KEY is in globals()
  pagerFails : Bool             -- whether the pagerduty client raises
  emailFails : Bool             -- whether the SMTP send raises
  urlFails : Bool               -- whether the webhook POST raises

/-- The `socket_timeout` passed to `redis.Redis` on line 204. -/
def REDIS_SOCKET_TIMEOUT : Nat := 2

/-- Lines 196-218, `check_redis_alerts_disabled`.  The `if not conn` branch of
the source is omitted: `redis.Redis(...)` returns an object, which is always
truthy, so that branch is unreachable.  A failing `conn.get` raises out of the
function (there is no try/except in the source). -/
def check_redis_alerts_disabled (kv : String → KvResult) (host plugin : String) :
    Except PyErr Bool :=
  match kv "global" with
  | KvResult.err => .error .kvError
  | KvResult.val globalAcks =>
    if pyTruthyOptStr globalAcks &&
        (strContains "*" (globalAcks.getD "") || strContains plugin (globalAcks.getD "")) then
      .ok true
    else
      match kv host with
      | KvResult.err => .error .kvError
      | KvResult.val result =>
        if pyTruthyOptStr result &&
            (strContains "*" (result.getD "") || strContains plugin (result.getD "")) then
          .ok true
        else
          .ok false

/-- Lines 228-233 of `dispatch_alert`: the suppression gate.  Returns
`.ok true` when the dispatch is to be suppressed (`return None`), `.ok false`
when it proceeds (including the "must call redis_config(), first" branch,
which only logs and falls through). -/
def suppressPhase (env : Env) (ev : Event) : Except PyErr Bool :=
  match env.datastore with
  | Option.none => .ok false
  | some ds =>
    if ds ≠ "" && strContains "redis" ds then
      if !env.redisConfigured then .ok false
      else check_redis_alerts_disabled env.kv ev.host ev.plugin
    else .ok false

/-- The string `'\x7b"host": "%s", "plugin": "%s", "severity": "%s",
"message": "%s"\x7d'` of line 225 after interpolation. -/
def buildText (host plugin severity message : String) : String :=
  "\x7b\"host\": \"" ++ host ++ "\", \"plugin\": \"" ++ plugin ++
    "\", \"severity\": \"" ++ severity ++ "\", \"message\": \"" ++ message ++ "\"\x7d"

/-- Python dict lookup for an object literal with possibly repeated keys:
the last binding wins. -/
def lookupLast (members : List (String × JVal)) (k : String) : Option JVal :=
  match members with
  | [] => Option.none
  | (k', v) :: rest =>
    match lookupLast rest k with
    | some r => some r
    | Option.none => if k' = k then some v else Option.none

/-- `message['k']` where the value is used as a string. -/
def getStrField (members : List (String × JVal)) (k : String) : Except PyErr String :=
  match lookupLast members k with
  | Option.none => .error (.keyError k)
  | some (JVal.str s) => .ok s
  | some _ => .error .typeError

/-- Line 225: build the alert dict via string formatting and `json.loads`.
`host` is `FQDN.split('.')[0]` (the split of a string is never empty, so the
index cannot fail); `plugin` is CALLER.  The four fields are extracted
eagerly here; in the source they are read lazily, but every later read uses
exactly these keys. -/
def buildEvent (env : Env) (severity message : String) : Except PyErr Event :=
  match loads (buildText ((pySplitChar '.' env.fqdn).headD "") env.caller severity message) with
  | Option.none => .error .jsonError
  | some (JVal.obj members) => do
    let h ← getStrField members "host"
    let p ← getStrField members "plugin"
    let sv ← getStrField members "severity"
    let m ← getStrField members "message"
    .ok ⟨h, p, sv, m⟩
  | some _ => .error .typeError

/-- Lines 238-258: the transition state computed from the first line read
from the state file (`None` when the file does not exist).  `state` stays
`'new'` unless the recorded line fails the Python substring test
`prev_state in message['severity']`. -/
def classifyState (prev : Option String) (severity : String) : String :=
  match prev with
  | Option.none => "new"
  | some prevState => if !strContains prevState severity then "transitioned" else "new"

/-- The `send_string` of line 158. -/
def sendStringOf (ev : Event) : String :=
  ev.host ++ " " ++ ev.plugin ++ ": " ++ upperStr ev.severity ++ " " ++ ev.message

/-- Lines 144-164, `send_to_pagerduty`.  The pagerduty client
(`authenticate`/`event`) is the external collaborator; `fails` says whether
it raises on this call.  Line 163 of the source reads
`elif 'failure' or 'warning' in message['serverity']:` — Python evaluates
this as `'failure' or (...)`, and the nonempty literal `'failure'` is truthy
and short-circuits (so the misspelt key is never read and the branch always
fires); that truthiness test is kept verbatim below. -/
def send_to_pagerduty (fails : Bool) (ev : Event) : Except PyErr (List Action) :=
  if fails then .error (.deliveryError "pager")
  else if strContains "okay" ev.severity then .ok [.pager "resolve" (sendStringOf ev)]
  else if ("failure" : String) ≠ "" then .ok [.pager "trigger" (sendStringOf ev)]
  else .ok []

/-- Lines 276-277: the webhook POST, attempted whenever `url` is truthy. -/
def urlStep (env : Env) (acts : List Action) (url : Option String) : DispatchOut :=
  if pyTruthyOptStr url then
    if env.urlFails then ⟨acts, .error (.deliveryError "url")⟩
    else ⟨acts ++ [.urlPost (url.getD "")], .ok .pyNone⟩
  else ⟨acts, .ok .pyNone⟩

/-- Lines 264-277: the three sinks in source order (pager, email, webhook).
None of the calls is wrapped in try/except, so a raising sink aborts the
remaining ones and the exception escapes. -/
def runSinks (env : Env) (ev : Event) (state : String) (page : Bool)
    (email url : Option String) : DispatchOut :=
  let pagerStep : Except PyErr (List Action) :=
    if page && strContains "transitioned" state then
      if !env.pdKeySet then .ok []   -- logs "must call set_pagerduty_key(), first"
      else send_to_pagerduty env.pagerFails ev
    else .ok []
  match pagerStep with
  | .error e => ⟨[], .error e⟩
  | .ok acts1 =>
    if pyTruthyOptStr email && strContains "transitioned" state then
      if env.emailFails then ⟨acts1, .error (.deliveryError "email")⟩
      else urlStep env (acts1 ++ [.emailSend (email.getD "")]) url
    else urlStep env acts1 url

/-- The chown attempt of lines 246-249 (only when the state file exists and
is not writable). -/
def chownActsOf (env : Env) (stateFilePath : String) : List Action :=
  match env.stateFile with
  | some _ => if !env.stateFileWritable then [Action.chown stateFilePath] else []
  | Option.none => []

/-- `STATE_DIR + "/%s" % message['plugin']` with the line-236 default. -/
def stateFilePathOf (env : Env) (ev : Event) : String :=
  (env.stateDir.getD "/tmp") ++ "/" ++ ev.plugin

/-- Lines 220-277, `dispatch_alert`. -/
def dispatch_alert (env : Env) (severity message : String) (page : Bool)
    (email url : Option String) : DispatchOut :=
  match buildEvent env severity message with
  | .error e => ⟨[], .error e⟩                      -- json.loads raised (line 225)
  | .ok ev =>
    match suppressPhase env ev with
    | .error e => ⟨[], .error e⟩                    -- redis lookup raised
    | .ok true => ⟨[], .ok .pyNone⟩                 -- line 233: return None
    | .ok false =>
      let stateFilePath := stateFilePathOf env ev
      if !env.dirExists || !env.dirWritable then
        ⟨[], .ok .pyNone⟩                           -- lines 242-244: log, return None
      else
        let chownActs := chownActsOf env stateFilePath
        let state := classifyState (env.stateFile.map readline) ev.severity
        if !env.writeOk then ⟨chownActs, .error .ioError⟩  -- open for write raised
        else
          let sinks := runSinks env ev state page email url
          ⟨chownActs ++ Action.stateWrite stateFilePath ev.severity :: sinks.actions,
            sinks.outcome⟩

/-- Line 281-282. -/
def failure (env : Env) (s : String) (page : Bool := false)
    (email : Option String := Option.none) (url : Option String := Option.none) :
    DispatchOut :=
  dispatch_alert env "failure" s page email url

/-- Line 284-285. -/
def warning (env : Env) (s : String) (page : Bool := false)
    (email : Option String := Option.none) (url : Option String := Option.none) :
    DispatchOut :=
  dispatch_alert env "warning" s page email url

/-- Line 287-288. -/
def ok (env : Env) (s : String) (page : Bool := false)
    (email : Option String := Option.none) (url : Option String := Option.none) :
    DispatchOut :=
  dispatch_alert env "okay" s page email url

/-! ## Embedding of `monitorlib/bin/collectd_notify.py` -/

/-- The output dict of `convert_to_json`: a mapping with at most the keys
Severity, Time, Host, Message. -/
structure NotifyOut where
  Severity : Option String
  Time : Option String
  Host : Option String
  Message : Option String
deriving DecidableEq

/-- `line.split(":")[1].lstrip(' ')` — raises IndexError when the line has no
colon (`split` then yields a single field). -/
def splitColonField (line : String) : Except PyErr String :=
  match pySplitChar ':' line with
  | _ :: second :: _ => .ok (lstripSpaces second)
  | _ => .error .indexError

/-- One iteration of the loop in lines 38-46. -/
def convertLine (out : NotifyOut) (line : String) : Except PyErr NotifyOut :=
  if strContains "Severity" line then do
    let v ← splitColonField line
    .ok { out with Severity := some v }
  else if strContains "Time" line then do
    let v ← splitColonField line
    .ok { out with Time := some v }
  else if strContains "Host" line then do
    let v ← splitColonField line
    .ok { out with Host := some v }
  else if line.length > 0 then .ok { out with Message := some line }
  else .ok out

/-- Lines 32-48, `convert_to_json`. -/
def convert_to_json (message : String) : Except PyErr NotifyOut :=
  (pySplitChar '\n' message).foldlM convertLine ⟨Option.none, Option.none, Option.none, Option.none⟩

/-- Delivery actions of the standalone utility. -/
inductive NAct where
  | tcpSend (host port : String)
  | httpPost (u : String)
  | printOut
deriving DecidableEq

/-- Lines 88-101 of `__main__`: empty stdin exits 1 before any parsing or
delivery; otherwise parse and deliver to exactly one target.  (Line 100 of
the source reads `else` without a colon — a slip modelled here as the evident
`else:` — which does not affect the stdin/parser behaviour claimed.)  The
result is the exit code together with the delivery actions attempted. -/
def notify_main (stdin : String) (server httpServer : Option String) :
    Except PyErr (Nat × List NAct) :=
  if stdin = "" then .ok (1, [])
  else
    match convert_to_json stdin with
    | .error e => .error e
    | .ok _ =>
      match server with
      | some srv =>
        match pySplitChar ':' srv with
        | [h, p] => .ok (0, [.tcpSend h p])
        | _ => .error .valueError
      | Option.none =>
        match httpServer with
        | some u => .ok (0, [.httpPost u])
        | Option.none => .ok (0, [.printOut])

/-! ## Spec-side definitions

These definitions transcribe the wording of claims (or of their minimal
amendments) rather than the source; each is compared against the
corresponding source-side definition in the theorems below. -/

/-- The three-way transition classification named by the spec. -/
inductive Classification where
  | firstObservation
  | unchanged
  | transitioned
deriving DecidableEq

/-- The classifier exactly as claim C2 words it: `Unchanged` when the
recorded previous severity's text is contained in the current severity's
text, compared case-insensitively. -/
def specClassifyClaim (prev : Option String) (cur : String) : Classification :=
  match prev with
  | Option.none => Classification.firstObservation
  | some p =>
    if strContains (lowerStr p) (lowerStr cur) then Classification.unchanged
    else Classification.transitioned

/-- The classifier as amended: the containment test the code performs is
case-sensitive. -/
def specClassifyAmended (prev : Option String) (cur : String) : Classification :=
  match prev with
  | Option.none => Classification.firstObservation
  | some p =>
    if strContains p cur then Classification.unchanged
    else Classification.transitioned

/-- One suppression entry as claim C6 words it: present and EQUAL to `*`, or
containing the plugin name. -/
def claimEntryMatches (v : Option String) (plugin : String) : Bool :=
  match v with
  | Option.none => false
  | some s => s = "*" || strContains plugin s

/-- The suppression query as claim C6 words it, on the values stored under
`global` and under the host key. -/
def claimSuppress (g h : Option String) (plugin : String) : Bool :=
  if claimEntryMatches g plugin then true else claimEntryMatches h plugin

/-- One suppression entry as amended: present, nonempty, and either
containing the character `*` or containing the plugin name (the code tests
`'*' in value`, a substring test, not equality). -/
def amendedEntryMatches (v : Option String) (plugin : String) : Bool :=
  match v with
  | Option.none => false
  | some s => s ≠ "" && (strContains "*" s || strContains plugin s)

/-- The suppression query as amended. -/
def amendedSuppress (g h : Option String) (plugin : String) : Bool :=
  if amendedEntryMatches g plugin then true else amendedEntryMatches h plugin

/-- The value of a key-bearing line as claim C9 words it: the text after the
first colon, with leading whitespace trimmed. -/
def afterFirstColon (line : String) : String :=
  String.mk ((((line.toList).dropWhile (· ≠ ':')).drop 1).dropWhile Char.isWhitespace)

/-! ## Concrete environments used by the theorems -/

/-- A healthy baseline environment: no suppression backend configured,
writable default state directory, no prior state file, all sinks deliver. -/
def envStd : Env := {
  fqdn := "h1.example.com", caller := "check",
  datastore := Option.none, redisConfigured := false,
  kv := fun _ => KvResult.err,
  stateDir := Option.none, dirExists := true, dirWritable := true,
  stateFile := Option.none, stateFileWritable := true, writeOk := true,
  pdKeySet := true, pagerFails := false, emailFails := false, urlFails := false }

/-- A suppression store holding only `myhost -> "diskcheck,paging"`. -/
def kvMyhostDisk : String → KvResult := fun k =>
  if k = "myhost" then KvResult.val (some "diskcheck,paging") else KvResult.val Option.none

/-- A suppression store holding only `global -> "*"`. -/
def kvGlobalStar : String → KvResult := fun k =>
  if k = "global" then KvResult.val (some "*") else KvResult.val Option.none

/-! ## Claim C2: the transition classifier -/

/-- C2 counterexample: the claim calls the containment test case-insensitive,
but the code's `prev_state in message['severity']` is case-sensitive.  With a
recorded previous severity `"OKAY"` and current severity `"okay"` the claim
classifies `Unchanged`, while the code computes `'transitioned'` — and
behaves accordingly: an email sink fires on that dispatch. -/
theorem C2_counterexample :
    specClassifyClaim (some "OKAY") "okay" = Classification.unchanged ∧
    classifyState (some "OKAY") "okay" = "transitioned" ∧
    (dispatch_alert { envStd with stateFile := some "OKAY" } "okay" "all good"
        false (some "a@b.c") Option.none).actions
      = [Action.stateWrite "/tmp/check" "okay", Action.emailSend "a@b.c"] := by
  refine ⟨by decide, by decide, by decide⟩

/-- C2 as amended: the classification computed inside `dispatch_alert` is
`'new'` when no prior state record exists (first observation) or when the
recorded previous severity's text is contained, case-SENSITIVELY, in the
current severity's text (unchanged); it is `'transitioned'` otherwise. -/
theorem C2_theorem :
    ∀ (prev : Option String) (cur : String),
      (classifyState prev cur = "transitioned" ↔
        specClassifyAmended prev cur = Classification.transitioned) ∧
      (classifyState prev cur = "new" ↔
        (specClassifyAmended prev cur = Classification.firstObservation ∨
          specClassifyAmended prev cur = Classification.unchanged)) ∧
      (prev = Option.none → specClassifyAmended prev cur = Classification.firstObservation) ∧
      (∀ p, prev = some p →
        (specClassifyAmended prev cur = Classification.unchanged ↔ strContains p cur = true)) := by
  intro prev cur
  have hnt : ("new" : String) ≠ "transitioned" := by decide
  cases prev with
  | none => simp [classifyState, specClassifyAmended, hnt]
  | some p =>
    by_cases hc : strContains p cur = true
    · simp [classifyState, specClassifyAmended, hc, hnt]
    · simp only [Bool.not_eq_true] at hc
      simp [classifyState, specClassifyAmended, hc, hnt]

/-- C2 witness: the amended theorem applied at a concrete pair. -/
theorem C2_witness :
    classifyState Option.none "failure" = "new" ∧
    specClassifyAmended Option.none "failure" = Classification.firstObservation :=
  ⟨by decide, (C2_theorem Option.none "failure").2.2.1 rfl⟩

/-! ## Claim C4: storage failure aborts silently -/

/-- C4 counterexample: with a missing state directory the dispatch is indeed
fully aborted, but no `StorageError` reaches the caller: `warning` returns
exactly the same `None` a completed dispatch returns, so the caller cannot
tell the dispatch did not complete. -/
theorem C4_counterexample :
    warning { envStd with dirExists := false } "disk filling"
      = ⟨[], .ok PyVal.pyNone⟩ ∧
    warning envStd "disk filling"
      = ⟨[Action.stateWrite "/tmp/check" "warning"], .ok PyVal.pyNone⟩ ∧
    (warning { envStd with dirExists := false } "disk filling").outcome
      = (warning envStd "disk filling").outcome := by
  refine ⟨by decide, by decide, by decide⟩

/-- C4 as amended: when the state directory does not exist or is not
writable, the dispatch is aborted with no state write and no sink invoked,
and the failure is only logged — `dispatch_alert` returns `None`, exactly as
on a completed dispatch, so no `StorageError` is signalled to the caller of
the convenience functions. -/
theorem C4_theorem :
    ∀ (env : Env) (sev msg : String) (page : Bool) (email url : Option String) (ev : Event),
      buildEvent env sev msg = .ok ev →
      suppressPhase env ev = .ok false →
      (env.dirExists = false ∨ env.dirWritable = false) →
      dispatch_alert env sev msg page email url = ⟨[], .ok PyVal.pyNone⟩ := by
  intro env sev msg page email url ev hb hs hdir
  unfold dispatch_alert
  simp only [hb, hs]
  rcases hdir with h | h <;> simp [h]

/-- C4 witness: the amended theorem applied at a concrete unwritable-storage
environment. -/
theorem C4_witness :
    dispatch_alert { envStd with dirWritable := false } "failure" "disk full"
        false Option.none Option.none = ⟨[], .ok PyVal.pyNone⟩ :=
  C4_theorem { envStd with dirWritable := false } "failure" "disk full"
    false Option.none Option.none ⟨"h1", "check", "failure", "disk full"⟩
    (by decide) (by decide) (Or.inr rfl)

/-! ## Claim C6: the suppression query -/

/-- C6 counterexample: the code tests `'*' in value` (substring), not
equality with `*`.  A `global` record `"foo*bar"` — neither equal to `*` nor
containing the plugin `netcheck` — suppresses under the code but not under
the claim's predicate. -/
theorem C6_counterexample :
    check_redis_alerts_disabled
        (fun k => if k = "global" then KvResult.val (some "foo*bar") else KvResult.val Option.none)
        "myhost" "netcheck" = .ok true ∧
    claimSuppress (some "foo*bar") Option.none "netcheck" = false := by
  refine ⟨by decide, by decide⟩

/-- The inline condition of lines 210 and 215 agrees with the amended
entry predicate. -/
theorem entryMatches_eq (v : Option String) (plugin : String) :
    (pyTruthyOptStr v &&
      (strContains "*" (v.getD "") || strContains plugin (v.getD "")))
      = amendedEntryMatches v plugin := by
  cases v <;> simp [pyTruthyOptStr, amendedEntryMatches]

/-- C6 as amended: the query returns true iff the `global` record is present,
nonempty, and contains the character `*` or the plugin name — else, the same
test on the host record; in particular `global = "*"` suppresses every
(host, plugin), and a host record containing `diskcheck` suppresses
`("myhost", "diskcheck")` but not `("myhost", "netcheck")`. -/
theorem C6_theorem :
    (∀ (g h : Option String) (plugin host : String) (kv : String → KvResult),
        kv "global" = KvResult.val g → kv host = KvResult.val h →
        check_redis_alerts_disabled kv host plugin = .ok (amendedSuppress g h plugin)) ∧
    (∀ host plugin, check_redis_alerts_disabled kvGlobalStar host plugin = .ok true) ∧
    check_redis_alerts_disabled kvMyhostDisk "myhost" "diskcheck" = .ok true ∧
    check_redis_alerts_disabled kvMyhostDisk "myhost" "netcheck" = .ok false := by
  refine ⟨?_, ?_, by decide, by decide⟩
  · intro g h plugin host kv hg hh
    unfold check_redis_alerts_disabled
    simp only [hg, hh]
    rw [entryMatches_eq, entryMatches_eq]
    unfold amendedSuppress
    by_cases hm : amendedEntryMatches g plugin = true
    · simp [hm]
    · simp only [Bool.not_eq_true] at hm
      cases hhp : amendedEntryMatches h plugin <;> simp [hm, hhp]
  · intro host plugin
    unfold check_redis_alerts_disabled kvGlobalStar
    have h1 : strContains "*" "*" = true := by decide
    simp [pyTruthyOptStr, h1]

/-- C6 witness: the amended equivalence applied at a concrete store. -/
theorem C6_witness :
    check_redis_alerts_disabled kvGlobalStar "h9" "p9"
      = .ok (amendedSuppress (some "*") Option.none "p9") :=
  C6_theorem.1 (some "*") Option.none "p9" "h9" kvGlobalStar (by decide) (by decide)

/-! ## Claim C7: the suppression lookup's failure behaviour -/

/-- C7 counterexample: on a connection failure the lookup does not return a
boolean — the redis exception escapes `check_redis_alerts_disabled`. -/
theorem C7_counterexample :
    check_redis_alerts_disabled (fun _ => KvResult.err) "myhost" "diskcheck"
      = .error PyErr.kvError := by decide

/-- C7 as amended: the redis connection is created with `socket_timeout = 2`,
but on a timeout or connection failure nothing is caught: the lookup raises
(whether the failing call is the `global` or the host lookup) and the
exception propagates out of `dispatch_alert` to its caller. -/
theorem C7_theorem :
    REDIS_SOCKET_TIMEOUT = 2 ∧
    (∀ (kv : String → KvResult) (host plugin : String),
        kv "global" = KvResult.err →
        check_redis_alerts_disabled kv host plugin = .error PyErr.kvError) ∧
    (∀ (kv : String → KvResult) (host plugin : String),
        kv "global" = KvResult.val Option.none → kv host = KvResult.err →
        check_redis_alerts_disabled kv host plugin = .error PyErr.kvError) ∧
    dispatch_alert { envStd with datastore := some "redis", redisConfigured := true }
        "failure" "disk full" false Option.none Option.none
      = ⟨[], .error PyErr.kvError⟩ := by
  refine ⟨rfl, ?_, ?_, by decide⟩
  · intro kv host plugin hg
    unfold check_redis_alerts_disabled
    simp only [hg]
  · intro kv host plugin hg hh
    unfold check_redis_alerts_disabled
    simp only [hg, hh]
    simp [pyTruthyOptStr]

/-- C7 witness: the amended theorem applied at a concrete failing store. -/
theorem C7_witness :
    check_redis_alerts_disabled (fun _ => KvResult.err) "h1" "check"
      = .error PyErr.kvError :=
  C7_theorem.2.1 (fun _ => KvResult.err) "h1" "check" rfl

/-! ## Claim C8: pager event type -/

/-- A concrete event with severity `okay` (the severity the `ok` wrapper
dispatches). -/
def evOkay : Event := ⟨"h1", "check", "okay", "all fine"⟩

/-- C8: for events carrying one of the three severities the library
dispatches, the pager sink sends a `resolve` event exactly when the severity
is `okay` and a `trigger` event exactly when it is `warning` or `failure`. -/
theorem C8_theorem :
    ∀ ev : Event,
      (ev.severity = "okay" ∨ ev.severity = "warning" ∨ ev.severity = "failure") →
      ((∃ t, send_to_pagerduty false ev = .ok [Action.pager "resolve" t]) ↔
        ev.severity = "okay") ∧
      ((∃ t, send_to_pagerduty false ev = .ok [Action.pager "trigger" t]) ↔
        (ev.severity = "warning" ∨ ev.severity = "failure")) := by
  intro ev hsev
  have hok : strContains "okay" "okay" = true := by decide
  have hw : strContains "okay" "warning" = false := by decide
  have hf : strContains "okay" "failure" = false := by decide
  have hrt : ("resolve" : String) ≠ "trigger" := by decide
  have hko : ("okay" : String) ≠ "warning" := by decide
  have hkf : ("okay" : String) ≠ "failure" := by decide
  have hwo : ("warning" : String) ≠ "okay" := by decide
  have hfo : ("failure" : String) ≠ "okay" := by decide
  rcases hsev with hs | hs | hs <;>
    simp [send_to_pagerduty, hs, hok, hw, hf, hrt, hko, hkf, hwo, hfo,
      Ne.symm hrt]

/-- C8 witness: the theorem applied at a concrete `okay` event. -/
theorem C8_witness :
    evOkay.severity = "okay" ∧
    ((∃ t, send_to_pagerduty false evOkay = .ok [Action.pager "resolve" t]) ↔
      evOkay.severity = "okay") :=
  ⟨rfl, (C8_theorem evOkay (Or.inl rfl)).1⟩

/-! ## Pipeline lemmas for the dispatch orchestrator -/

/-- Sink deliveries, as opposed to filesystem side effects. -/
def isSinkAction : Action → Bool
  | Action.pager _ _ => true
  | Action.emailSend _ => true
  | Action.urlPost _ => true
  | _ => false

/-- The computed state is one of the two strings of lines 239/255. -/
theorem classifyState_cases (prev : Option String) (severity : String) :
    classifyState prev severity = "new" ∨ classifyState prev severity = "transitioned" := by
  cases prev with
  | none => exact Or.inl rfl
  | some p =>
    unfold classifyState
    by_cases h : strContains p severity = true
    · simp [h]
    · simp only [Bool.not_eq_true] at h
      simp [h]

/-- The chown attempt is either absent or a single chown action. -/
theorem chownActsOf_cases (env : Env) (p : String) :
    chownActsOf env p = [] ∨ chownActsOf env p = [Action.chown p] := by
  unfold chownActsOf
  cases env.stateFile with
  | none => exact Or.inl rfl
  | some s =>
    by_cases h : env.stateFileWritable = true
    · simp [h]
    · simp only [Bool.not_eq_true] at h
      simp [h]

/-- Nothing in the chown attempt is a sink delivery. -/
theorem chownActsOf_not_sink (env : Env) (p : String) :
    ∀ a ∈ chownActsOf env p, isSinkAction a = false := by
  rcases chownActsOf_cases env p with h | h <;> rw [h] <;> intro a ha
  · simp at ha
  · simp at ha
    rw [ha]
    rfl

/-- Everything `runSinks` performs is a sink delivery. -/
theorem runSinks_sink_only (env : Env) (ev : Event) (state : String) (page : Bool)
    (email url : Option String) :
    ∀ a ∈ (runSinks env ev state page email url).actions, isSinkAction a = true := by
  intro a ha
  cases a with
  | chown f =>
    exfalso
    unfold runSinks send_to_pagerduty urlStep at ha
    split_ifs at ha <;> simp_all
  | stateWrite f c =>
    exfalso
    unfold runSinks send_to_pagerduty urlStep at ha
    split_ifs at ha <;> simp_all
  | pager k t => rfl
  | emailSend x => rfl
  | urlPost u => rfl

/-- Lines 235-277 once the dispatch has survived event construction, the
suppression gate, and the storage checks: a possible chown attempt, then the
state write, then the sink fan-out. -/
theorem dispatch_shape (env : Env) (sev msg : String) (page : Bool)
    (email url : Option String) (ev : Event)
    (hb : buildEvent env sev msg = .ok ev) (hs : suppressPhase env ev = .ok false)
    (hd : env.dirExists = true) (hw : env.dirWritable = true) (hwo : env.writeOk = true) :
    dispatch_alert env sev msg page email url =
      ⟨chownActsOf env (stateFilePathOf env ev) ++
          Action.stateWrite (stateFilePathOf env ev) ev.severity ::
            (runSinks env ev (classifyState (env.stateFile.map readline) ev.severity)
                page email url).actions,
        (runSinks env ev (classifyState (env.stateFile.map readline) ev.severity)
            page email url).outcome⟩ := by
  unfold dispatch_alert
  simp only [hb, hs]
  simp [hd, hw, hwo]

/-- Normal form of the sink fan-out when no sink raises. -/
theorem runSinks_ok (env : Env) (ev : Event) (state : String) (page : Bool)
    (email url : Option String)
    (hp : env.pagerFails = false) (he : env.emailFails = false) (hu : env.urlFails = false) :
    runSinks env ev state page email url =
      ⟨(if page && strContains "transitioned" state then
            (if env.pdKeySet then
                (if strContains "okay" ev.severity then
                    [Action.pager "resolve" (sendStringOf ev)]
                  else [Action.pager "trigger" (sendStringOf ev)])
              else [])
          else []) ++
        (if pyTruthyOptStr email && strContains "transitioned" state then
            [Action.emailSend (email.getD "")]
          else []) ++
        (if pyTruthyOptStr url then [Action.urlPost (url.getD "")] else []),
        .ok PyVal.pyNone⟩ := by
  have hfe : ("failure" : String) ≠ "" := by decide
  unfold runSinks send_to_pagerduty urlStep
  rw [hp, he, hu]
  split_ifs <;> simp_all

/-! ## Claim C1: which sinks fire for which classification -/

/-- C1 counterexample: a dispatch that is neither suppressed nor aborted on a
storage error, with a webhook URL requested, in which the webhook is NOT
invoked: the email sink raises first (nothing catches it), so the webhook
POST of lines 276-277 is never reached. -/
theorem C1_counterexample :
    dispatch_alert { envStd with stateFile := some "okay", emailFails := true }
        "failure" "disk full" false (some "a@b.c") (some "http://hook")
      = ⟨[Action.stateWrite "/tmp/check" "failure"], .error (.deliveryError "email")⟩ ∧
    Action.urlPost "http://hook" ∉
      (dispatch_alert { envStd with stateFile := some "okay", emailFails := true }
        "failure" "disk full" false (some "a@b.c") (some "http://hook")).actions := by
  refine ⟨by decide, by decide⟩

/-- C1 as amended: on every dispatch that survives event construction, the
suppression gate and the storage checks, and in which no sink raises, the
webhook fires iff a URL was requested — regardless of the computed
classification, first-observation and unchanged included — while the pager
fires iff paging was requested, a pager key is configured and the
classification is `'transitioned'`, and the email sink fires iff an address
was requested and the classification is `'transitioned'`. -/
theorem C1_theorem :
    ∀ (env : Env) (sev msg : String) (page : Bool) (email url : Option String) (ev : Event),
      buildEvent env sev msg = .ok ev →
      suppressPhase env ev = .ok false →
      env.dirExists = true → env.dirWritable = true → env.writeOk = true →
      env.pagerFails = false → env.emailFails = false → env.urlFails = false →
      ((Action.urlPost (url.getD "") ∈ (dispatch_alert env sev msg page email url).actions ↔
          pyTruthyOptStr url = true) ∧
        ((∃ k t, Action.pager k t ∈ (dispatch_alert env sev msg page email url).actions) ↔
          (page = true ∧ env.pdKeySet = true ∧
            classifyState (env.stateFile.map readline) ev.severity = "transitioned")) ∧
        ((∃ x, Action.emailSend x ∈ (dispatch_alert env sev msg page email url).actions) ↔
          (pyTruthyOptStr email = true ∧
            classifyState (env.stateFile.map readline) ev.severity = "transitioned"))) := by
  intro env sev msg page email url ev hb hs hd hw hwo hp he hu
  rw [dispatch_shape env sev msg page email url ev hb hs hd hw hwo,
    runSinks_ok env ev _ page email url hp he hu]
  have hT : strContains "transitioned" "transitioned" = true := by decide
  have hN : strContains "transitioned" "new" = false := by decide
  have hnt : ("new" : String) ≠ "transitioned" := by decide
  rcases classifyState_cases (env.stateFile.map readline) ev.severity with hc | hc <;>
    rw [hc] <;>
    rcases chownActsOf_cases env (stateFilePathOf env ev) with hch | hch <;>
    rw [hch] <;>
    by_cases hpg : page = true <;>
    by_cases hpd : env.pdKeySet = true <;>
    by_cases hok : strContains "okay" ev.severity = true <;>
    by_cases hem : pyTruthyOptStr email = true <;>
    by_cases hur : pyTruthyOptStr url = true <;>
    simp_all [hT, hN, hnt]

/-- C1 witness: the amended theorem applied at a healthy concrete dispatch. -/
theorem C1_witness :
    Action.urlPost "http://hook" ∈
      (dispatch_alert envStd "failure" "disk full" true (some "a@b.c")
        (some "http://hook")).actions ↔
    pyTruthyOptStr (some "http://hook") = true :=
  (C1_theorem envStd "failure" "disk full" true (some "a@b.c") (some "http://hook")
    ⟨"h1", "check", "failure", "disk full"⟩ (by decide) (by decide)
    rfl rfl rfl rfl rfl rfl).1

/-! ## Claim C3: the state write -/

/-- C3 counterexample: a dispatch that is neither suppressed nor aborted on a
storage error — the suppression lookup raises instead — after which no state
record is written at all. -/
theorem C3_counterexample :
    dispatch_alert { envStd with datastore := some "redis", redisConfigured := true }
        "warning" "cpu high" false Option.none Option.none
      = ⟨[], .error PyErr.kvError⟩ ∧
    Action.stateWrite "/tmp/check" "warning" ∉
      (dispatch_alert { envStd with datastore := some "redis", redisConfigured := true }
        "warning" "cpu high" false Option.none Option.none).actions := by
  refine ⟨by decide, by decide⟩

/-- C3 as amended: on every dispatch that survives event construction, the
suppression gate, the storage checks and the state-file open, the state
record for the event's plugin is written with exactly the event's severity,
unconditionally — whatever the classification — and strictly before any sink
delivery: every action before the write is a filesystem action (the chown
attempt) and every action after it is a sink delivery. -/
theorem C3_theorem :
    ∀ (env : Env) (sev msg : String) (page : Bool) (email url : Option String) (ev : Event),
      buildEvent env sev msg = .ok ev →
      suppressPhase env ev = .ok false →
      env.dirExists = true → env.dirWritable = true → env.writeOk = true →
      ∃ pre post,
        (dispatch_alert env sev msg page email url).actions
          = pre ++ Action.stateWrite (stateFilePathOf env ev) ev.severity :: post ∧
        (∀ a ∈ pre, isSinkAction a = false) ∧
        (∀ a ∈ post, isSinkAction a = true) := by
  intro env sev msg page email url ev hb hs hd hw hwo
  rw [dispatch_shape env sev msg page email url ev hb hs hd hw hwo]
  exact ⟨chownActsOf env (stateFilePathOf env ev),
    (runSinks env ev (classifyState (env.stateFile.map readline) ev.severity)
      page email url).actions,
    rfl, chownActsOf_not_sink env _, runSinks_sink_only env ev _ page email url⟩

/-- C3 witness: the amended theorem applied at a healthy concrete dispatch. -/
theorem C3_witness :
    ∃ pre post,
      (dispatch_alert envStd "failure" "disk full" false Option.none
          (some "http://hook")).actions
        = pre ++ Action.stateWrite
            (stateFilePathOf envStd ⟨"h1", "check", "failure", "disk full"⟩)
            ("failure" : String) :: post ∧
      (∀ a ∈ pre, isSinkAction a = false) ∧
      (∀ a ∈ post, isSinkAction a = true) :=
  C3_theorem envStd "failure" "disk full" false Option.none (some "http://hook")
    ⟨"h1", "check", "failure", "disk full"⟩ (by decide) (by decide) rfl rfl rfl

/-! ## Claim C5: sink failures -/

/-- C5 counterexample: a raising pager sink is not caught: the exception
escapes to the caller of `failure`, and neither the email sink nor the
webhook is attempted. -/
theorem C5_counterexample :
    failure { envStd with stateFile := some "okay", pagerFails := true } "service down"
        true (some "a@b.c") (some "http://hook")
      = ⟨[Action.stateWrite "/tmp/check" "failure"], .error (.deliveryError "pager")⟩ := by
  decide

/-- C5 as amended: a delivery-sink failure is NOT caught inside the dispatch:
a raising pager call aborts the email and webhook sinks and its exception
propagates to the caller of the convenience functions; likewise a raising
email send aborts the webhook. -/
theorem C5_theorem :
    (∀ (env : Env) (sev msg : String) (email url : Option String) (ev : Event),
      buildEvent env sev msg = .ok ev →
      suppressPhase env ev = .ok false →
      env.dirExists = true → env.dirWritable = true → env.writeOk = true →
      env.pagerFails = true → env.pdKeySet = true →
      classifyState (env.stateFile.map readline) ev.severity = "transitioned" →
      ((dispatch_alert env sev msg true email url).outcome
          = .error (.deliveryError "pager") ∧
        (∀ x, Action.emailSend x ∉ (dispatch_alert env sev msg true email url).actions) ∧
        (∀ u2, Action.urlPost u2 ∉ (dispatch_alert env sev msg true email url).actions))) ∧
    (∀ (env : Env) (sev msg : String) (email url : Option String) (ev : Event),
      buildEvent env sev msg = .ok ev →
      suppressPhase env ev = .ok false →
      env.dirExists = true → env.dirWritable = true → env.writeOk = true →
      env.emailFails = true → pyTruthyOptStr email = true →
      classifyState (env.stateFile.map readline) ev.severity = "transitioned" →
      ((dispatch_alert env sev msg false email url).outcome
          = .error (.deliveryError "email") ∧
        (∀ u2, Action.urlPost u2 ∉ (dispatch_alert env sev msg false email url).actions))) := by
  have hT : strContains "transitioned" "transitioned" = true := by decide
  constructor
  · intro env sev msg email url ev hb hs hd hw hwo hpf hpd hcls
    rw [dispatch_shape env sev msg true email url ev hb hs hd hw hwo, hcls]
    have hrs : runSinks env ev "transitioned" true email url
        = ⟨[], .error (.deliveryError "pager")⟩ := by
      unfold runSinks send_to_pagerduty
      simp [hpf, hpd, hT]
    rw [hrs]
    refine ⟨rfl, ?_, ?_⟩
    · intro x hx
      simp only [List.mem_append, List.mem_cons, List.not_mem_nil, or_false] at hx
      rcases hx with hx | hx
      · have := chownActsOf_not_sink env _ _ hx
        simp [isSinkAction] at this
      · exact absurd hx (by simp)
    · intro u2 hx
      simp only [List.mem_append, List.mem_cons, List.not_mem_nil, or_false] at hx
      rcases hx with hx | hx
      · have := chownActsOf_not_sink env _ _ hx
        simp [isSinkAction] at this
      · exact absurd hx (by simp)
  · intro env sev msg email url ev hb hs hd hw hwo hef hem hcls
    rw [dispatch_shape env sev msg false email url ev hb hs hd hw hwo, hcls]
    have hrs : runSinks env ev "transitioned" false email url
        = ⟨[], .error (.deliveryError "email")⟩ := by
      unfold runSinks
      simp [hef, hem, hT]
    rw [hrs]
    refine ⟨rfl, ?_⟩
    intro u2 hx
    simp only [List.mem_append, List.mem_cons, List.not_mem_nil, or_false] at hx
    rcases hx with hx | hx
    · have := chownActsOf_not_sink env _ _ hx
      simp [isSinkAction] at this
    · exact absurd hx (by simp)

/-- C5 witness: the amended theorem applied at a concrete failing-pager
dispatch. -/
theorem C5_witness :
    (dispatch_alert { envStd with stateFile := some "okay", pagerFails := true }
        "failure" "db down" true (some "x@y.z") (some "http://h")).outcome
      = .error (.deliveryError "pager") ∧
    (∀ x, Action.emailSend x ∉
      (dispatch_alert { envStd with stateFile := some "okay", pagerFails := true }
        "failure" "db down" true (some "x@y.z") (some "http://h")).actions) ∧
    (∀ u2, Action.urlPost u2 ∉
      (dispatch_alert { envStd with stateFile := some "okay", pagerFails := true }
        "failure" "db down" true (some "x@y.z") (some "http://h")).actions) :=
  C5_theorem.1 { envStd with stateFile := some "okay", pagerFails := true }
    "failure" "db down" (some "x@y.z") (some "http://h")
    ⟨"h1", "check", "failure", "db down"⟩ (by decide) (by decide)
    rfl rfl rfl rfl rfl (by decide)

/-! ## List lemmas for the split-based parser of the standalone utility -/

/-- Rebuilding a string from its characters is the identity. -/
theorem strMk_toList (s : String) : String.mk s.toList = s := rfl

/-- `toList` distributes over string append. -/
theorem strToList_append (a b : String) : (a ++ b).toList = a.toList ++ b.toList := rfl

/-- Splitting consumes a separator-free segment up to the first separator. -/
theorem splitCharAux_sep (sep : Char) :
    ∀ (xs rest acc : List Char), (∀ c ∈ xs, c ≠ sep) →
      splitCharAux sep (xs ++ sep :: rest) acc
        = String.mk (acc.reverse ++ xs) :: splitCharAux sep rest [] := by
  intro xs
  induction xs with
  | nil =>
    intro rest acc _
    simp [splitCharAux]
  | cons x xs ih =>
    intro rest acc h
    have hx : x ≠ sep := h x (List.mem_cons_self x xs)
    simp only [List.cons_append, splitCharAux, if_neg hx, List.append_eq]
    rw [ih rest (x :: acc) (fun c hc => h c (List.mem_cons_of_mem x hc))]
    simp

/-- Splitting a separator-free list yields a single field. -/
theorem splitCharAux_nosep (sep : Char) :
    ∀ (xs acc : List Char), (∀ c ∈ xs, c ≠ sep) →
      splitCharAux sep xs acc = [String.mk (acc.reverse ++ xs)] := by
  intro xs
  induction xs with
  | nil => intro acc _; simp [splitCharAux]
  | cons x xs ih =>
    intro acc h
    have hx : x ≠ sep := h x (List.mem_cons_self x xs)
    simp only [splitCharAux, if_neg hx]
    rw [ih (x :: acc) (fun c hc => h c (List.mem_cons_of_mem x hc))]
    simp

/-- A list is an initial segment of itself followed by anything. -/
theorem leadsList_append_self : ∀ (p rest : List Char), leadsList p (p ++ rest) = true := by
  intro p
  induction p with
  | nil => intro rest; rfl
  | cons x xs ih => intro rest; simp [leadsList, ih]

/-- An initial segment is in particular an infix. -/
theorem infixOfList_of_lead : ∀ (p l : List Char), leadsList p l = true → infixOfList p l = true := by
  intro p l h
  cases l with
  | nil => exact h
  | cons x xs =>
    unfold infixOfList
    simp [h]

/-! ## Claim C9: the standalone utility's parser -/

/-- C9 counterexample: the code takes `line.split(":")[1]` — the text between
the first and the second colon — not everything after the first colon: on
`"Host: h:example.com"` it stores `"h"`, while the claim's rule stores
`"h:example.com"`. -/
theorem C9_counterexample :
    convert_to_json "Host: h:example.com"
      = .ok ⟨Option.none, Option.none, some "h", Option.none⟩ ∧
    afterFirstColon "Host: h:example.com" = "h:example.com" ∧
    ("h" : String) ≠ "h:example.com" := by
  refine ⟨by decide, by decide, by decide⟩

/-- C9 as amended: a line containing `Severity` (likewise `Time`, `Host`)
stores, under that key, the text BETWEEN the first and second colons with
leading spaces trimmed; every other non-empty line overwrites the `Message`
key so only the last such line survives; the reference input parses to the
claimed four-field mapping; and empty standard input exits with code 1
without attempting any delivery. -/
theorem C9_theorem :
    (∀ v w : String, (∀ c ∈ v.toList, c ≠ ':') → (∀ c ∈ v.toList, c ≠ '\n') →
      (∀ c ∈ w.toList, c ≠ '\n') →
      convert_to_json ("Severity:" ++ v ++ ":" ++ w)
        = .ok ⟨some (lstripSpaces v), Option.none, Option.none, Option.none⟩) ∧
    convert_to_json "Severity: FAILURE\nTime: 100\nHost: h.example.com\n\nDisk full"
      = .ok ⟨some "FAILURE", some "100", some "h.example.com", some "Disk full"⟩ ∧
    convert_to_json "alpha\nbeta"
      = .ok ⟨Option.none, Option.none, Option.none, some "beta"⟩ ∧
    notify_main "" Option.none Option.none = .ok (1, []) := by
  refine ⟨?_, by decide, by decide, by decide⟩
  intro v w hv hvn hwn
  have hL : ("Severity:" ++ v ++ ":" ++ w).toList
      = "Severity".toList ++ ':' :: (v.toList ++ ':' :: w.toList) := by
    simp [strToList_append]
  have hSevN : ∀ c ∈ "Severity".toList, c ≠ '\n' := by decide
  have hchars : ∀ c ∈ ("Severity:" ++ v ++ ":" ++ w).toList, c ≠ '\n' := by
    rw [hL]
    intro c hc
    simp only [List.mem_append, List.mem_cons] at hc
    rcases hc with hc | hc | hc | hc | hc
    · exact hSevN c hc
    · exact hc ▸ (by decide)
    · exact hvn c hc
    · exact hc ▸ (by decide)
    · exact hwn c hc
  have hone : pySplitChar '\n' ("Severity:" ++ v ++ ":" ++ w)
      = ["Severity:" ++ v ++ ":" ++ w] := by
    unfold pySplitChar
    rw [splitCharAux_nosep '\n' _ [] hchars]
    simp only [List.reverse_nil, List.nil_append, strMk_toList]
  have hsev : strContains "Severity" ("Severity:" ++ v ++ ":" ++ w) = true := by
    unfold strContains
    rw [hL]
    exact infixOfList_of_lead _ _ (leadsList_append_self _ _)
  have hsplit : pySplitChar ':' ("Severity:" ++ v ++ ":" ++ w)
      = "Severity" :: v :: splitCharAux ':' w.toList [] := by
    unfold pySplitChar
    rw [hL, splitCharAux_sep ':' _ _ [] (by decide),
      splitCharAux_sep ':' _ _ [] hv]
    simp [strMk_toList]
  unfold convert_to_json
  rw [hone]
  show convertLine ⟨Option.none, Option.none, Option.none, Option.none⟩
      ("Severity:" ++ v ++ ":" ++ w) >>= _ = _
  unfold convertLine
  rw [if_pos hsev]
  unfold splitColonField
  rw [hsplit]
  rfl

/-- C9 witness: the amended per-line rule applied at a concrete line. -/
theorem C9_witness :
    convert_to_json ("Severity:" ++ " FAILURE" ++ ":" ++ "junk")
      = .ok ⟨some (lstripSpaces " FAILURE"), Option.none, Option.none, Option.none⟩ :=
  C9_theorem.1 " FAILURE" "junk" (by decide) (by decide) (by decide)

/-! ## JSON-reader lemmas for messages free of special characters -/

/-- A string body of plain characters (no quote, no backslash, no control
character) decodes to itself, consuming up to the closing quote. -/
theorem parseString_clean :
    ∀ (xs : List Char), (∀ c ∈ xs, c ≠ '"' ∧ c ≠ '\\' ∧ ¬ c.toNat < 32) →
      ∀ rest, parseString (xs ++ '"' :: rest) = some (xs, rest) := by
  intro xs
  induction xs with
  | nil => intro _ rest; rfl
  | cons x xs ih =>
    intro h rest
    obtain ⟨hq, hb, hc⟩ := h x (List.mem_cons_self x xs)
    have ihh := ih (fun c hc2 => h c (List.mem_cons_of_mem x hc2)) rest
    unfold parseString at ihh ⊢
    simp only [List.cons_append, List.length_cons, List.append_eq, parseStringBody,
      if_neg hq, if_neg hb, if_neg hc, ihh]
    rfl

/-- One unfolding of `parseStep` on the members of an object whose next
member starts right away with a quote. -/
theorem parseStep_members_quote (f : Nat) (cs1 : List Char) (acc : List (String × JVal)) :
    parseStep (f + 1) (PJob.members ('"' :: cs1) acc)
      = match parseString cs1 with
        | Option.none => Option.none
        | some (k, cs2) =>
          match cs2.dropWhile isWs with
          | ':' :: cs3 =>
            match parseStep f (PJob.value cs3) with
            | Option.none => Option.none
            | some (v, cs4) =>
              match cs4.dropWhile isWs with
              | c :: cs5 =>
                if c = ',' then parseStep f (PJob.members cs5 (acc ++ [(String.mk k, v)]))
                else if c = Char.ofNat 125 then
                  some (JVal.obj (acc ++ [(String.mk k, v)]), cs5)
                else Option.none
              | [] => Option.none
          | _ => Option.none := rfl

/-- The same unfolding with one leading space, as after the `", "`
separators of the formatted text. -/
theorem parseStep_members_quote_sp (f : Nat) (cs1 : List Char) (acc : List (String × JVal)) :
    parseStep (f + 1) (PJob.members (' ' :: '"' :: cs1) acc)
      = match parseString cs1 with
        | Option.none => Option.none
        | some (k, cs2) =>
          match cs2.dropWhile isWs with
          | ':' :: cs3 =>
            match parseStep f (PJob.value cs3) with
            | Option.none => Option.none
            | some (v, cs4) =>
              match cs4.dropWhile isWs with
              | c :: cs5 =>
                if c = ',' then parseStep f (PJob.members cs5 (acc ++ [(String.mk k, v)]))
                else if c = Char.ofNat 125 then
                  some (JVal.obj (acc ++ [(String.mk k, v)]), cs5)
                else Option.none
              | [] => Option.none
          | _ => Option.none :=
  parseStep_members_quote f cs1 acc

/-- A space-then-quote-headed input parses as a string value. -/
theorem parseStep_value_str_sp (f : Nat) (cs : List Char) :
    parseStep (f + 1) (PJob.value (' ' :: '"' :: cs))
      = (parseString cs).map (fun r => (JVal.str (String.mk r.1), r.2)) := rfl

/-- An open-brace-then-quote-headed input parses as a non-empty object. -/
theorem parseStep_value_obj (f : Nat) (cs : List Char) :
    parseStep (f + 1) (PJob.value (Char.ofNat 123 :: '"' :: cs))
      = parseStep f (PJob.members ('"' :: cs) []) := rfl

/-- One member of the formatted object, continued by a comma: consumes
`"k": "v",` and recurses on the rest. -/
theorem parseStep_member_cont (f : Nat) (k v cs : List Char) (acc : List (String × JVal))
    (hk : ∀ c ∈ k, c ≠ '"' ∧ c ≠ '\\' ∧ ¬ c.toNat < 32)
    (hv : ∀ c ∈ v, c ≠ '"' ∧ c ≠ '\\' ∧ ¬ c.toNat < 32) :
    parseStep (f + 1 + 1)
        (PJob.members ('"' :: (k ++ '"' :: ':' :: ' ' :: '"' :: (v ++ '"' :: ',' :: cs))) acc)
      = parseStep (f + 1)
          (PJob.members cs (acc ++ [(String.mk k, JVal.str (String.mk v))])) := by
  have hpk := parseString_clean k hk (':' :: ' ' :: '"' :: (v ++ '"' :: ',' :: cs))
  have hpv := parseString_clean v hv (',' :: cs)
  have hwsColon : isWs ':' = false := rfl
  have hwsComma : isWs ',' = false := rfl
  have hcomma : ((',' : Char) = ',') = True := eq_true rfl
  rw [parseStep_members_quote (f + 1)]
  simp only [hpk, List.dropWhile, hwsColon, hwsComma, parseStep_value_str_sp, hpv,
    Option.map, hcomma, if_true]

/-- The last member of the formatted object, closed by a brace. -/
theorem parseStep_member_last (f : Nat) (k v cs : List Char) (acc : List (String × JVal))
    (hk : ∀ c ∈ k, c ≠ '"' ∧ c ≠ '\\' ∧ ¬ c.toNat < 32)
    (hv : ∀ c ∈ v, c ≠ '"' ∧ c ≠ '\\' ∧ ¬ c.toNat < 32) :
    parseStep (f + 1 + 1)
        (PJob.members
          ('"' :: (k ++ '"' :: ':' :: ' ' :: '"' :: (v ++ '"' :: Char.ofNat 125 :: cs))) acc)
      = some (JVal.obj (acc ++ [(String.mk k, JVal.str (String.mk v))]), cs) := by
  have hpk := parseString_clean k hk (':' :: ' ' :: '"' :: (v ++ '"' :: Char.ofNat 125 :: cs))
  have hpv := parseString_clean v hv (Char.ofNat 125 :: cs)
  have hwsColon : isWs ':' = false := rfl
  have hwsBrace : isWs (Char.ofNat 125) = false := rfl
  have hbc : ((Char.ofNat 125 : Char) = ',') = False :=
    eq_false (by decide)
  have hbb : ((Char.ofNat 125 : Char) = Char.ofNat 125) = True := eq_true rfl
  rw [parseStep_members_quote (f + 1)]
  simp only [hpk, List.dropWhile, hwsColon, hwsBrace, parseStep_value_str_sp, hpv,
    Option.map, hbc, hbb, if_false, if_true]

/-- The comma-continued member lemmas with the separating space of `", "`. -/
theorem parseStep_member_cont_sp (f : Nat) (k v cs : List Char) (acc : List (String × JVal))
    (hk : ∀ c ∈ k, c ≠ '"' ∧ c ≠ '\\' ∧ ¬ c.toNat < 32)
    (hv : ∀ c ∈ v, c ≠ '"' ∧ c ≠ '\\' ∧ ¬ c.toNat < 32) :
    parseStep (f + 1 + 1)
        (PJob.members
          (' ' :: '"' :: (k ++ '"' :: ':' :: ' ' :: '"' :: (v ++ '"' :: ',' :: cs))) acc)
      = parseStep (f + 1)
          (PJob.members cs (acc ++ [(String.mk k, JVal.str (String.mk v))])) := by
  have hpk := parseString_clean k hk (':' :: ' ' :: '"' :: (v ++ '"' :: ',' :: cs))
  have hpv := parseString_clean v hv (',' :: cs)
  have hwsColon : isWs ':' = false := rfl
  have hwsComma : isWs ',' = false := rfl
  have hcomma : ((',' : Char) = ',') = True := eq_true rfl
  rw [parseStep_members_quote_sp (f + 1)]
  simp only [hpk, List.dropWhile, hwsColon, hwsComma, parseStep_value_str_sp, hpv,
    Option.map, hcomma, if_true]

/-- The closing member lemma with the separating space of `", "`. -/
theorem parseStep_member_last_sp (f : Nat) (k v cs : List Char) (acc : List (String × JVal))
    (hk : ∀ c ∈ k, c ≠ '"' ∧ c ≠ '\\' ∧ ¬ c.toNat < 32)
    (hv : ∀ c ∈ v, c ≠ '"' ∧ c ≠ '\\' ∧ ¬ c.toNat < 32) :
    parseStep (f + 1 + 1)
        (PJob.members
          (' ' :: '"' :: (k ++ '"' :: ':' :: ' ' :: '"' :: (v ++ '"' :: Char.ofNat 125 :: cs)))
          acc)
      = some (JVal.obj (acc ++ [(String.mk k, JVal.str (String.mk v))]), cs) := by
  have hpk := parseString_clean k hk (':' :: ' ' :: '"' :: (v ++ '"' :: Char.ofNat 125 :: cs))
  have hpv := parseString_clean v hv (Char.ofNat 125 :: cs)
  have hwsColon : isWs ':' = false := rfl
  have hwsBrace : isWs (Char.ofNat 125) = false := rfl
  have hbc : ((Char.ofNat 125 : Char) = ',') = False :=
    eq_false (by decide)
  have hbb : ((Char.ofNat 125 : Char) = Char.ofNat 125) = True := eq_true rfl
  rw [parseStep_members_quote_sp (f + 1)]
  simp only [hpk, List.dropWhile, hwsColon, hwsBrace, parseStep_value_str_sp, hpv,
    Option.map, hbc, hbb, if_false, if_true]

/-- `json.loads` on the formatted alert text for a message of plain
characters: the exact four-member object, in order, with the message decoded
verbatim. -/
theorem loads_buildText (msg : List Char)
    (h : ∀ c ∈ msg, c ≠ '"' ∧ c ≠ '\\' ∧ ¬ c.toNat < 32) :
    loads (buildText "h1" "check" "failure" (String.mk msg))
      = some (JVal.obj [("host", JVal.str "h1"), ("plugin", JVal.str "check"),
          ("severity", JVal.str "failure"), ("message", JVal.str (String.mk msg))]) := by
  have htext : (buildText "h1" "check" "failure" (String.mk msg)).toList
      = Char.ofNat 123 :: '"' :: (
          "host".toList ++ '"' :: ':' :: ' ' :: '"' :: (
            "h1".toList ++ '"' :: ',' :: ' ' :: '"' :: (
              "plugin".toList ++ '"' :: ':' :: ' ' :: '"' :: (
                "check".toList ++ '"' :: ',' :: ' ' :: '"' :: (
                  "severity".toList ++ '"' :: ':' :: ' ' :: '"' :: (
                    "failure".toList ++ '"' :: ',' :: ' ' :: '"' :: (
                      "message".toList ++ '"' :: ':' :: ' ' :: '"' :: (
                        msg ++ '"' :: Char.ofNat 125 :: [])))))))) := rfl
  have hlh : ("host".toList).length = 4 := rfl
  have hl1 : ("h1".toList).length = 2 := rfl
  have hlp : ("plugin".toList).length = 6 := rfl
  have hlc : ("check".toList).length = 5 := rfl
  have hls : ("severity".toList).length = 8 := rfl
  have hlf : ("failure".toList).length = 7 := rfl
  have hlm : ("message".toList).length = 7 := rfl
  unfold loads parseValue
  rw [htext]
  have hlen : (Char.ofNat 123 :: '"' :: (
          "host".toList ++ '"' :: ':' :: ' ' :: '"' :: (
            "h1".toList ++ '"' :: ',' :: ' ' :: '"' :: (
              "plugin".toList ++ '"' :: ':' :: ' ' :: '"' :: (
                "check".toList ++ '"' :: ',' :: ' ' :: '"' :: (
                  "severity".toList ++ '"' :: ':' :: ' ' :: '"' :: (
                    "failure".toList ++ '"' :: ',' :: ' ' :: '"' :: (
                      "message".toList ++ '"' :: ':' :: ' ' :: '"' :: (
                        msg ++ '"' :: Char.ofNat 125 :: []))))))))).length
      = msg.length + 69 + 1 + 1 := by
    simp only [List.length_cons, List.length_append, List.length_nil,
      hlh, hl1, hlp, hlc, hls, hlf, hlm]
    omega
  rw [hlen]
  rw [show msg.length + 69 + 1 + 1 + 1 = (msg.length + 69 + 1 + 1) + 1 from rfl,
    parseStep_value_obj (msg.length + 69 + 1 + 1)]
  rw [parseStep_member_cont (msg.length + 69) "host".toList "h1".toList _ []
    (by decide) (by decide)]
  rw [show msg.length + 69 + 1 = msg.length + 68 + 1 + 1 from rfl]
  rw [parseStep_member_cont_sp (msg.length + 68) "plugin".toList "check".toList _ _
    (by decide) (by decide)]
  rw [show msg.length + 68 + 1 = msg.length + 67 + 1 + 1 from rfl]
  rw [parseStep_member_cont_sp (msg.length + 67) "severity".toList "failure".toList _ _
    (by decide) (by decide)]
  rw [show msg.length + 67 + 1 = msg.length + 66 + 1 + 1 from rfl]
  rw [parseStep_member_last_sp (msg.length + 66) "message".toList msg _ _
    (by decide) h]
  rfl

/-- Event construction succeeds verbatim for messages of plain characters. -/
theorem buildEvent_clean (msg : List Char)
    (h : ∀ c ∈ msg, c ≠ '"' ∧ c ≠ '\\' ∧ ¬ c.toNat < 32) :
    buildEvent envStd "failure" (String.mk msg)
      = .ok ⟨"h1", "check", "failure", String.mk msg⟩ := by
  unfold buildEvent
  rw [(by decide : (pySplitChar '.' envStd.fqdn).headD "" = "h1"),
    (by rfl : envStd.caller = "check")]
  rw [loads_buildText msg h]
  rfl

/-! ## Claim C10: messages with quotes or backslashes -/

/-- C10 counterexample: a message of two backslash characters contains a
backslash, yet `ok` runs the dispatch to completion without raising — the
two characters are decoded as one escaped backslash by `json.loads`. -/
theorem C10_counterexample :
    strContains "\\" "\\\\" = true ∧
    ok envStd "\\\\" = ⟨[Action.stateWrite "/tmp/check" "okay"], .ok PyVal.pyNone⟩ := by
  refine ⟨by decide, by decide⟩

/-- C10 as amended: some messages containing a double-quote or backslash —
any whose embedding between quotes is not valid JSON, such as a lone
double-quote or a backslash before an invalid escape character — make
`dispatch_alert` raise a JSON-decoding error while constructing the event,
before the suppression lookup, the state write or any sink; but not all such
messages raise: escape-forming sequences (for example two backslashes) are
decoded and the dispatch proceeds with an altered message.  Every message
free of double-quotes, backslashes and control characters constructs its
event verbatim. -/
theorem C10_theorem :
    (∀ (env : Env) (sev msg : String) (page : Bool) (email url : Option String),
        buildEvent env sev msg = .error PyErr.jsonError →
        dispatch_alert env sev msg page email url = ⟨[], .error PyErr.jsonError⟩) ∧
    buildEvent envStd "failure" "\"" = .error PyErr.jsonError ∧
    buildEvent envStd "failure" "\\x" = .error PyErr.jsonError ∧
    buildEvent envStd "failure" "\\\\" = .ok ⟨"h1", "check", "failure", "\\"⟩ ∧
    dispatch_alert { envStd with datastore := some "redis", redisConfigured := true }
        "failure" "\"" false Option.none Option.none = ⟨[], .error PyErr.jsonError⟩ ∧
    (∀ msg : String, (∀ c ∈ msg.toList, c ≠ '"' ∧ c ≠ '\\' ∧ ¬ c.toNat < 32) →
        buildEvent envStd "failure" msg = .ok ⟨"h1", "check", "failure", msg⟩) := by
  refine ⟨?_, by decide, by decide, by decide, by decide, ?_⟩
  · intro env sev msg page email url hb
    unfold dispatch_alert
    simp only [hb]
  · intro msg hmsg
    have hres := buildEvent_clean msg.toList hmsg
    rwa [strMk_toList] at hres

/-- C10 witness: the amended theorem applied at a concrete plain message and
at the dispatch short-circuit. -/
theorem C10_witness :
    buildEvent envStd "failure" "disk full"
      = .ok ⟨"h1", "check", "failure", "disk full"⟩ :=
  C10_theorem.2.2.2.2.2 "disk full" (by decide)

end Monitorlib
